import Mathlib

/-!
Verification of the gyroscope acquisition components of the repository
(GyroscopeChart.tsx, GyroscopeMeasurement.tsx and their near-duplicate
variants).  Numbers of the source (JavaScript number) are modelled as
rationals; timestamps (Date.now) as naturals in milliseconds.
-/

set_option autoImplicit false

namespace Gyro

/-- One sample of the three orientation angles, as buffered by the
components (the objects pushed into the dataPoints state). -/
structure Sample where
  x : ℚ
  y : ℚ
  z : ℚ
  deriving DecidableEq, Repr

/-- The chartRange state: the display range of the y axis. -/
structure ChartRange where
  min : ℚ
  max : ℚ
  deriving DecidableEq, Repr

/-- The activeAxes visibility state of the variant with axis toggles. -/
structure AxesVis where
  x : Bool
  y : Bool
  z : Bool
  deriving DecidableEq, Repr

/-- The React state of the GyroscopeChart component (fields of the
consolidated variant; activeAxes exists only in the toggling variant and
is carried here for it). -/
structure ChartState where
  gyroData : Sample
  dataPoints : List Sample
  chartRange : ChartRange
  activeAxes : AxesVis
  permissionGranted : Bool
  permissionAttempted : Bool
  hasGyroscope : Bool
  isLoading : Bool
  deriving DecidableEq, Repr

/-- Initial state of the component, from the useState initialisers:
gyroData zero, dataPoints empty, chartRange from -360 to 360, all axes
visible, permission not granted nor attempted, hasGyroscope true,
isLoading true. -/
def initChartState : ChartState :=
  { gyroData := ⟨0, 0, 0⟩
    dataPoints := []
    chartRange := ⟨-360, 360⟩
    activeAxes := ⟨true, true, true⟩
    permissionGranted := false
    permissionAttempted := false
    hasGyroscope := true
    isLoading := true }

/-- The buffer update inside updateGyroData: push the new point, then if
the length exceeds the capacity drop the first (oldest) element, exactly
as newPoints.push / newPoints.shift does. -/
def appendCapped (cap : ℕ) (prev : List Sample) (s : Sample) : List Sample :=
  let ps := prev ++ [s]
  if cap < ps.length then ps.tail else ps

/-- Math.min over a spread array: fold of min over the elements (the
empty case cannot occur in the component, the buffer was just appended
to). -/
def listMin : List ℚ → ℚ
  | [] => 0
  | v :: vs => vs.foldl min v

/-- Math.max over a spread array. -/
def listMax : List ℚ → ℚ
  | [] => 0
  | v :: vs => vs.foldl max v

/-- The setChartRange updater inside updateGyroData:
min of the previous min, the buffer minimum and -10, and max of the
previous max, the buffer maximum and 10. -/
def refreshRange (r : ChartRange) (minValue maxValue : ℚ) : ChartRange :=
  ⟨min (min r.min minValue) (-10), max (max r.max maxValue) 10⟩

/-- updateGyroData of GyroscopeChart.tsx: store the latest reading, append
to the buffer with capacity 1000, and refresh the chart range from all
three axes of the whole buffer on every call. -/
def updateGyroData (st : ChartState) (x y z : ℚ) : ChartState :=
  let newPoints := appendCapped 1000 st.dataPoints ⟨x, y, z⟩
  let allValues := newPoints.flatMap (fun p => [p.x, p.y, p.z])
  { st with
      gyroData := ⟨x, y, z⟩
      dataPoints := newPoints
      chartRange := refreshRange st.chartRange (listMin allValues) (listMax allValues) }

/-- One updateGyroData call taken as a step on the component state, the
argument triple being the reading passed in. -/
def updateStep (st : ChartState) (t : ℚ × ℚ × ℚ) : ChartState :=
  updateGyroData st t.1 t.2.1 t.2.2

/-- A whole run of updateGyroData calls from the initial component
state. -/
def runUpdates (seq : List (ℚ × ℚ × ℚ)) : ChartState :=
  seq.foldl updateStep initChartState

/-- The three axis keys of a sample. -/
inductive Axis
  | x
  | y
  | z
  deriving DecidableEq, Repr

/-- Indexing a sample by an axis key, as p[axis] does. -/
def axisValue (p : Sample) : Axis → ℚ
  | .x => p.x
  | .y => p.y
  | .z => p.z

/-- The local activeAxes binding computed inside updateGyroData of the
toggling variant: the source builds it from the tests x !== null,
y !== null, z !== null on the arguments, which have type number and are
never null, so the list always contains all three axes.  This local
binding shadows the activeAxes visibility state of the component. -/
def localActiveAxes (_x _y _z : ℚ) : List Axis := [Axis.x, Axis.y, Axis.z]

/-- updateGyroData of the toggling variant: capacity 500, and the chart
range is refreshed only when the buffer length is a multiple of 10, over
the values of the axes named by the shadowing local activeAxes list. -/
def updateGyroDataV1 (st : ChartState) (x y z : ℚ) : ChartState :=
  let newPoints := appendCapped 500 st.dataPoints ⟨x, y, z⟩
  if newPoints.length % 10 == 0 then
    let act := localActiveAxes x y z
    let allValues := newPoints.flatMap (fun p => act.map (axisValue p))
    { st with
        gyroData := ⟨x, y, z⟩
        dataPoints := newPoints
        chartRange := refreshRange st.chartRange (listMin allValues) (listMax allValues) }
  else
    { st with gyroData := ⟨x, y, z⟩, dataPoints := newPoints }

/-- toggleAxis of the toggling variant: flips one visibility flag and
nothing else. -/
def toggleAxis (st : ChartState) : Axis → ChartState
  | .x => { st with activeAxes := { st.activeAxes with x := !st.activeAxes.x } }
  | .y => { st with activeAxes := { st.activeAxes with y := !st.activeAxes.y } }
  | .z => { st with activeAxes := { st.activeAxes with z := !st.activeAxes.z } }

/-- A state of the toggling variant in which axis x is hidden and nine
zero samples are buffered, so that the next append reaches a multiple of
ten and triggers a range refresh. -/
def c6State : ChartState :=
  { initChartState with
      activeAxes := ⟨false, true, true⟩
      dataPoints := List.replicate 9 ⟨0, 0, 0⟩ }

/-! Section: Availability probe (checkGyroscopeAvailability of the toggling
variant): a listener waiting for one event with three non-null angles,
and a timeout of 2000 ms that is scheduled but never cancelled. -/

/-- State of one run of checkGyroscopeAvailability: whether the
checkOrientation listener is still registered, whether the setTimeout
callback is still pending (the source never clears it), the isLoading
and hasGyroscope component fields, and the list of values successively
written to hasGyroscope by this run (its resolutions). -/
structure ProbeState where
  listening : Bool
  timerPending : Bool
  isLoading : Bool
  hasGyroscope : Bool
  resolutions : List Bool
  deriving DecidableEq, Repr

/-- State right after checkGyroscopeAvailability runs: listener added,
timeout scheduled, component still loading with hasGyroscope at its
initial value true, no resolution yet. -/
def probeInit : ProbeState := ⟨true, true, true, true, []⟩

/-- A happening observed by the probe: a deviceorientation event with
its three optional angle components, or the firing of the 2000 ms
timeout. -/
inductive ProbeHap
  | orientEvent (alpha beta gamma : Option ℚ)
  | timeoutFire
  deriving DecidableEq, Repr

/-- One probe step.  An event reaches checkOrientation only while the
listener is registered; the handler acts only when all three components
are non-null, in which case it records availability and removes itself.
The timeout callback, when it fires, removes the listener, ends loading
and records unavailability unconditionally. -/
def probeStep (st : ProbeState) : ProbeHap → ProbeState
  | .orientEvent a b g =>
    if st.listening && a.isSome && b.isSome && g.isSome then
      { st with
          hasGyroscope := true
          isLoading := false
          listening := false
          resolutions := st.resolutions ++ [true] }
    else st
  | .timeoutFire =>
    if st.timerPending then
      { st with
          listening := false
          timerPending := false
          isLoading := false
          hasGyroscope := false
          resolutions := st.resolutions ++ [false] }
    else st

/-- A run of the probe over a list of happenings. -/
def probeRun (haps : List ProbeHap) : ProbeState :=
  haps.foldl probeStep probeInit

/-! Section: Liveness monitor (the subscription effect of the toggling
variant): handleOrientation stamps lastUpdateTime, checkGyroscopeStatus
runs every second with a 5000 ms self-heal tier and a 10000 ms
disconnect tier. -/

/-- State of the subscription effect: whether the raw deviceorientation
listener is registered, whether the heartbeat and check intervals are
still active, the hasGyroscope component field, the lastUpdateTime local
variable (ms), and whether the stall log line (the potentially
disconnected message of the 5000 ms tier) has been emitted. -/
structure MonState where
  subscribed : Bool
  timersActive : Bool
  hasGyroscope : Bool
  lastUpdateTime : ℕ
  stallLogged : Bool
  deriving DecidableEq, Repr

/-- handleOrientation at time now: an event is delivered only while the
listener is subscribed, and then stamps lastUpdateTime with now. -/
def handleOrientation (now : ℕ) (st : MonState) : MonState :=
  if st.subscribed then { st with lastUpdateTime := now } else st

/-- checkGyroscopeStatus at time now.  If more than 5000 ms have passed
since the last update, the listener is removed and immediately re-added
(net effect: subscribed) and the stall message is logged; if more than
10000 ms have passed, hasGyroscope is cleared, the listener is removed
and both intervals are cleared. -/
def checkGyroscopeStatus (now : ℕ) (st : MonState) : MonState :=
  let elapsed := now - st.lastUpdateTime
  let st1 :=
    if 5000 < elapsed then
      { st with subscribed := true, stallLogged := true }
    else st
  if 10000 < elapsed then
    { st1 with hasGyroscope := false, subscribed := false, timersActive := false }
  else st1

/-- A happening observed by the monitor: a deviceorientation event or a
tick of the check interval, each carrying the current time. -/
inductive MonHap
  | orient (now : ℕ)
  | check (now : ℕ)
  deriving DecidableEq, Repr

/-- One monitor step.  A check tick occurs only while the check interval
has not been cleared. -/
def monStep (st : MonState) : MonHap → MonState
  | .orient now => handleOrientation now st
  | .check now => if st.timersActive then checkGyroscopeStatus now st else st

/-- Number of steps of a run at which the monitor performs its teardown,
that is at which the intervals (and with them the subscription) go from
active to cleared. -/
def teardownCount : MonState → List MonHap → ℕ
  | _, [] => 0
  | st, hap :: rest =>
    (if st.timersActive && !(monStep st hap).timersActive then 1 else 0)
      + teardownCount (monStep st hap) rest

/-! Section: Virtual controls (VirtualControls component). -/

/-- The position state of VirtualControls: normalized joystick X and Y
and slider Z. -/
structure Pos where
  x : ℚ
  y : ℚ
  z : ℚ
  deriving DecidableEq, Repr

/-- Math.max lo (Math.min hi v), the clamping pattern of
handleMouseMove. -/
def clampQ (lo hi v : ℚ) : ℚ := max lo (min hi v)

/-- handleMouseMove: maps the client coordinates into the joystick
rectangle, clamps X and Y into the interval from -1 to 1 and keeps the
slider Z; the result is both stored as the position and emitted through
onMove. -/
def handleMouseMove (clientX left width clientY top height pz : ℚ) : Pos :=
  let x := (clientX - left) / width * 2 - 1
  let y := -((clientY - top) / height * 2 - 1)
  ⟨clampQ (-1) 1 x, clampQ (-1) 1 y, pz⟩

/-- handleMouseUp: the position becomes x and y zero with z kept, and
onMove is called with exactly those three values (returned as the second
component). -/
def handleMouseUp (p : Pos) : Pos × (ℚ × ℚ × ℚ) :=
  (⟨0, 0, p.z⟩, (0, 0, p.z))

/-- handleZChange: stores the new slider value and emits the current x
and y with the new z. -/
def handleZChange (p : Pos) (newZ : ℚ) : Pos × (ℚ × ℚ × ℚ) :=
  ({ p with z := newZ }, (p.x, p.y, newZ))

/-- handleJoystickMove of GyroscopeChart.tsx: scales every normalized
coordinate by 1000, mapping the joystick y to the sample x angle, the
joystick x to the sample y angle and the slider z to the sample z
angle, with no clamping of its own. -/
def handleJoystickMove (x y z : ℚ) : Sample :=
  ⟨y * 1000, x * 1000, z * 1000⟩

/-! Section: Permission controller (requestGyroscopePermission). -/

/-- The string a granted consent resolves to. -/
def grantedStr : String := "granted"

/-- The string of a denied consent, used as a concrete witness value. -/
def deniedStr : String := "denied"

/-- Outcome of the platform consent mechanism: the promise resolved with
some string, the promise rejected or the call threw, or the platform has
no requestPermission function at all. -/
inductive PermOutcome
  | resolved (s : String)
  | threw
  | noMechanism
  deriving DecidableEq, Repr

/-- requestGyroscopePermission of GyroscopeChart.tsx as a state update
per consent outcome: a resolved promise grants exactly when the string
equals granted; a thrown error is caught, logged, and marks
hasGyroscope false; an absent mechanism grants immediately.  Every
branch marks the attempt. -/
def requestGyroscopePermission (st : ChartState) (o : PermOutcome) : ChartState :=
  match o with
  | .resolved s =>
    { st with permissionGranted := s == grantedStr, permissionAttempted := true }
  | .threw =>
    { st with hasGyroscope := false, permissionAttempted := true }
  | .noMechanism =>
    { st with permissionGranted := true, permissionAttempted := true }

/-! Section: Liveness transitions on the component state, and the measurement
component. -/

/-- retryGyroscopeConnection: sets loading, assumes a gyroscope again
and clears the attempted flag (the availability and permission routines
it then invokes are separate steps). -/
def retryGyroscopeConnection (st : ChartState) : ChartState :=
  { st with isLoading := true, hasGyroscope := true, permissionAttempted := false }

/-- The stall-detection fallback on the component state: the
setHasGyroscope false performed when the monitor declares the sensor
disconnected. -/
def gyroscopeDisconnect (st : ChartState) : ChartState :=
  { st with hasGyroscope := false }

/-- The availability-probe timeout on the component state: ends loading
and records that no sensor was detected. -/
def availabilityTimeout (st : ChartState) : ChartState :=
  { st with isLoading := false, hasGyroscope := false }

/-- startMeasurement of GyroscopeMeasurement.tsx acting on its gyroData
buffer: the buffer is replaced by the empty list (setGyroData of the
empty array) and isMeasuring becomes true, whatever was buffered
before. -/
def startMeasurement (_prev : List Sample) : List Sample × Bool :=
  ([], true)

/-! Section: Helper lemmas. -/

theorem runUpdates_inv (P : ChartState → Prop)
    (hstep : ∀ st t, P st → P (updateStep st t))
    (hinit : P initChartState) (seq : List (ℚ × ℚ × ℚ)) : P (runUpdates seq) := by
  unfold runUpdates
  have haux : ∀ (l : List (ℚ × ℚ × ℚ)) (st : ChartState),
      P st → P (l.foldl updateStep st) := by
    intro l
    induction l with
    | nil => intro st h; exact h
    | cons a l ih => intro st h; exact ih (updateStep st a) (hstep st a h)
  exact haux seq initChartState hinit

theorem appendCapped_length_le (cap : ℕ) (b : List Sample) (s : Sample)
    (h : b.length ≤ cap) : (appendCapped cap b s).length ≤ cap := by
  have hlen : (b ++ [s]).length = b.length + 1 := by
    rw [List.length_append, List.length_singleton]
  by_cases hc : cap < (b ++ [s]).length
  · simp only [appendCapped, if_pos hc, List.length_tail]
    omega
  · simp only [appendCapped, if_neg hc]
    omega

theorem appendCapped_full (cap : ℕ) (b : List Sample) (s : Sample)
    (hb : b.length = cap) (hpos : 0 < cap) :
    appendCapped cap b s = b.tail ++ [s] := by
  have hlen : (b ++ [s]).length = b.length + 1 := by
    rw [List.length_append, List.length_singleton]
  have hlt : cap < (b ++ [s]).length := by omega
  cases b with
  | nil =>
    rw [List.length_nil] at hb
    omega
  | cons a t =>
    have hlt2 : cap < (a :: (t ++ [s])).length := by
      rw [List.cons_append] at hlt
      exact hlt
    simp only [appendCapped, List.cons_append, if_pos hlt2, List.tail_cons]

theorem refreshRange_min_le (r : ChartRange) (a b : ℚ) :
    (refreshRange r a b).min ≤ r.min :=
  le_trans (min_le_left _ _) (min_le_left _ _)

theorem refreshRange_le_max (r : ChartRange) (a b : ℚ) :
    r.max ≤ (refreshRange r a b).max :=
  le_trans (le_max_left _ _) (le_max_left _ _)

theorem refreshRange_min_le_ten (r : ChartRange) (a b : ℚ) :
    (refreshRange r a b).min ≤ -10 :=
  min_le_right _ _

theorem refreshRange_ten_le_max (r : ChartRange) (a b : ℚ) :
    10 ≤ (refreshRange r a b).max :=
  le_max_right _ _

theorem updateGyroData_dataPoints (st : ChartState) (x y z : ℚ) :
    (updateGyroData st x y z).dataPoints = appendCapped 1000 st.dataPoints ⟨x, y, z⟩ :=
  rfl

theorem updateGyroData_chartRange (st : ChartState) (x y z : ℚ) :
    ∃ a b, (updateGyroData st x y z).chartRange = refreshRange st.chartRange a b :=
  ⟨_, _, rfl⟩

theorem updateGyroData_min_le (st : ChartState) (x y z : ℚ) :
    (updateGyroData st x y z).chartRange.min ≤ st.chartRange.min :=
  refreshRange_min_le _ _ _

theorem updateGyroData_le_max (st : ChartState) (x y z : ℚ) :
    st.chartRange.max ≤ (updateGyroData st x y z).chartRange.max :=
  refreshRange_le_max _ _ _

/-! Section: Claim theorems. -/

/-- Claim C1: for every sequence of updateGyroData calls the buffer
length stays at most the capacity constant 1000, and an append to a full
buffer removes exactly the oldest element, keeping the survivors in FIFO
insertion order followed by the new sample. -/
theorem c1_buffer_capacity_fifo :
    (∀ seq : List (ℚ × ℚ × ℚ), (runUpdates seq).dataPoints.length ≤ 1000)
    ∧ ∀ (buf : List Sample) (s : Sample), buf.length = 1000 →
        appendCapped 1000 buf s = buf.tail ++ [s] := by
  constructor
  · intro seq
    exact runUpdates_inv (fun st => st.dataPoints.length ≤ 1000)
      (fun st t hst => by
        show (updateGyroData st t.1 t.2.1 t.2.2).dataPoints.length ≤ 1000
        rw [updateGyroData_dataPoints]
        exact appendCapped_length_le _ _ _ hst)
      (by simp [initChartState]) seq
  · intro buf s hb
    exact appendCapped_full 1000 buf s hb (by norm_num)

/-- Witness for C1: a concrete full buffer of 1000 zero samples; the
append drops the head and appends the new sample at the back. -/
theorem c1_buffer_capacity_fifo_witness :
    appendCapped 1000 (List.replicate 1000 (⟨0, 0, 0⟩ : Sample)) ⟨1, 2, 3⟩
      = (List.replicate 1000 (⟨0, 0, 0⟩ : Sample)).tail ++ [⟨1, 2, 3⟩] :=
  c1_buffer_capacity_fifo.2 _ _ (by rw [List.length_replicate])

/-- Claim C2: across updateGyroData calls the chart range never shrinks
(min never increases, max never decreases), and in every state reachable
from the initial one the range satisfies min at most -10 and max at
least 10. -/
theorem c2_range_monotone_and_bounded :
    (∀ (st : ChartState) (x y z : ℚ),
        (updateGyroData st x y z).chartRange.min ≤ st.chartRange.min
        ∧ st.chartRange.max ≤ (updateGyroData st x y z).chartRange.max)
    ∧ ∀ seq : List (ℚ × ℚ × ℚ),
        (runUpdates seq).chartRange.min ≤ -10 ∧ 10 ≤ (runUpdates seq).chartRange.max := by
  constructor
  · intro st x y z
    exact ⟨updateGyroData_min_le st x y z, updateGyroData_le_max st x y z⟩
  · intro seq
    exact runUpdates_inv
      (fun st => st.chartRange.min ≤ -10 ∧ 10 ≤ st.chartRange.max)
      (fun st t _ => ⟨refreshRange_min_le_ten _ _ _, refreshRange_ten_le_max _ _ _⟩)
      (by norm_num [initChartState]) seq

/-- Claim C10: the chart range starts at -360 to 360 and every refresh
only widens it, so every reachable state has min at most -360 and max at
least 360 - strictly stronger than the -10 and 10 bounds, and the range
can never tighten to fit small data. -/
theorem c10_range_never_tightens :
    initChartState.chartRange = ⟨-360, 360⟩
    ∧ ∀ seq : List (ℚ × ℚ × ℚ),
        (runUpdates seq).chartRange.min ≤ -360 ∧ 360 ≤ (runUpdates seq).chartRange.max := by
  refine ⟨rfl, ?_⟩
  intro seq
  exact runUpdates_inv
    (fun st => st.chartRange.min ≤ -360 ∧ 360 ≤ st.chartRange.max)
    (fun st t hst =>
      ⟨le_trans (updateGyroData_min_le st t.1 t.2.1 t.2.2) hst.1,
       le_trans hst.2 (updateGyroData_le_max st t.1 t.2.1 t.2.2)⟩)
    (by norm_num [initChartState]) seq

theorem monStep_timersActive_of_inactive (st : MonState) (hap : MonHap)
    (h : st.timersActive = false) : (monStep st hap).timersActive = false := by
  cases hap with
  | orient now =>
    simp only [monStep, handleOrientation]
    split <;> simpa using h
  | check now => simp [monStep, h]

theorem teardownCount_of_inactive (haps : List MonHap) :
    ∀ st : MonState, st.timersActive = false → teardownCount st haps = 0 := by
  induction haps with
  | nil => intro st _; rfl
  | cons hap rest ih =>
    intro st h
    unfold teardownCount
    rw [h, ih (monStep st hap) (monStep_timersActive_of_inactive st hap h)]
    simp

theorem teardownCount_le_one (haps : List MonHap) :
    ∀ st : MonState, teardownCount st haps ≤ 1 := by
  induction haps with
  | nil => intro st; simp [teardownCount]
  | cons hap rest ih =>
    intro st
    unfold teardownCount
    by_cases hb : (st.timersActive && !(monStep st hap).timersActive) = true
    · have h2 : (monStep st hap).timersActive = false := by
        have hb2 := hb
        simp only [Bool.and_eq_true, Bool.not_eq_true'] at hb2
        exact hb2.2
      rw [if_pos hb, teardownCount_of_inactive rest _ h2]
    · rw [if_neg hb]
      simpa using ih (monStep st hap)

/-- Claim C3: the availability probe is claimed to resolve exactly once,
the first of event and timeout cancelling the other.  In the source the
timeout is never cancelled: after a qualifying event resolves
availability true, the pending timeout still fires and resolves false,
overwriting the earlier resolution.  This run is the failing input: one
event with three non-null angles, then the timeout. -/
theorem c3_timeout_overwrites_event :
    (probeRun [ProbeHap.orientEvent (some 0) (some 0) (some 0),
        ProbeHap.timeoutFire]).resolutions = [true, false]
    ∧ (probeRun [ProbeHap.orientEvent (some 0) (some 0) (some 0),
        ProbeHap.timeoutFire]).hasGyroscope = false := by
  constructor <;> rfl

/-- Claim C4: while live, every delivered real-sensor sample stamps
lastUpdateTime with the current time; the periodic check re-subscribes
the listener and emits the stall mark when more than 5000 ms have
elapsed, tears the subscription and all timers down and clears
hasGyroscope when more than 10000 ms have elapsed; after the teardown no
step changes the subscription, and in any run the teardown happens at
most once. -/
theorem c4_two_tier_stall_monitor :
    (∀ (st : MonState) (now : ℕ), st.subscribed = true →
        (handleOrientation now st).lastUpdateTime = now)
    ∧ (∀ (st : MonState) (now : ℕ), st.timersActive = true →
        5000 < now - st.lastUpdateTime → now - st.lastUpdateTime ≤ 10000 →
          (monStep st (MonHap.check now)).stallLogged = true
          ∧ (monStep st (MonHap.check now)).subscribed = true
          ∧ (monStep st (MonHap.check now)).timersActive = true
          ∧ (monStep st (MonHap.check now)).hasGyroscope = st.hasGyroscope)
    ∧ (∀ (st : MonState) (now : ℕ), st.timersActive = true →
        10000 < now - st.lastUpdateTime →
          (monStep st (MonHap.check now)).hasGyroscope = false
          ∧ (monStep st (MonHap.check now)).subscribed = false
          ∧ (monStep st (MonHap.check now)).timersActive = false)
    ∧ (∀ (st : MonState) (hap : MonHap), st.timersActive = false →
        (monStep st hap).subscribed = st.subscribed
        ∧ (monStep st hap).timersActive = false)
    ∧ ∀ (st : MonState) (haps : List MonHap), teardownCount st haps ≤ 1 := by
  refine ⟨?_, ?_, ?_, ?_, ?_⟩
  · intro st now h
    simp [handleOrientation, h]
  · intro st now ht h5 h10
    have h10n : ¬ 10000 < now - st.lastUpdateTime := not_lt.mpr h10
    simp [monStep, checkGyroscopeStatus, ht, h5, h10n]
  · intro st now ht h10
    have h5 : 5000 < now - st.lastUpdateTime :=
      lt_trans (by norm_num) h10
    simp [monStep, checkGyroscopeStatus, ht, h5, h10]
  · intro st hap h
    cases hap with
    | orient now =>
      constructor
      · simp only [monStep, handleOrientation]
        split <;> rfl
      · exact monStep_timersActive_of_inactive st _ h
    | check now =>
      constructor
      · simp [monStep, h]
      · exact monStep_timersActive_of_inactive st _ h
  · intro st haps
    exact teardownCount_le_one haps st

/-- Witness for C4 at concrete states: an event at time 777 stamps the
timestamp, a check at 6000 ms of silence logs the stall and keeps the
monitor alive, a check at 20000 ms of silence tears the timers down, and
a step after teardown leaves the subscription unchanged. -/
theorem c4_two_tier_stall_monitor_witness :
    (handleOrientation 777 ⟨true, true, true, 0, false⟩).lastUpdateTime = 777
    ∧ (monStep ⟨true, true, true, 0, false⟩ (MonHap.check 6000)).stallLogged = true
    ∧ (monStep ⟨true, true, true, 0, false⟩ (MonHap.check 20000)).timersActive = false
    ∧ (monStep ⟨true, false, true, 0, false⟩ (MonHap.orient 5)).subscribed
        = (⟨true, false, true, 0, false⟩ : MonState).subscribed :=
  ⟨c4_two_tier_stall_monitor.1 _ 777 rfl,
   (c4_two_tier_stall_monitor.2.1 _ 6000 rfl (by norm_num) (by norm_num)).1,
   (c4_two_tier_stall_monitor.2.2.1 _ 20000 rfl (by norm_num)).2.2,
   (c4_two_tier_stall_monitor.2.2.2.1 _ (MonHap.orient 5) rfl).1⟩

/-- Claim C5: on every pointer release the virtual adapter synthesizes
its next sample from normalized x and y zero while z keeps exactly the
value it had before the release, both in the stored position and in the
emitted onMove triple; in particular after dragging to one half and
minus one half and dialing z to one quarter, release emits zero, zero,
one quarter. -/
theorem c5_release_resets_xy_keeps_z :
    (∀ p : Pos, (handleMouseUp p).2 = (0, 0, p.z) ∧ (handleMouseUp p).1 = ⟨0, 0, p.z⟩)
    ∧ (handleMouseUp ((handleZChange ⟨1/2, -1/2, 0⟩ (1/4)).1)).2 = (0, 0, 1/4) :=
  ⟨fun _ => ⟨rfl, rfl⟩, rfl⟩

set_option maxRecDepth 40000 in
/-- Claim C6: the range refresh of the toggling variant is claimed to use
only the visible axes, but the local activeAxes list inside
updateGyroDataV1 shadows the visibility state and always names all three
axes.  Failing input: axis x hidden, nine zero samples buffered, then a
reading of 1000, 0, 0 arrives: the refresh sets the range max to 1000,
a value carried only by the hidden axis (the maximum over the two
visible axes is 0), while toggling an axis indeed leaves the buffer
unchanged. -/
theorem c6_range_uses_hidden_axis :
    c6State.activeAxes.x = false
    ∧ (updateGyroDataV1 c6State 1000 0 0).chartRange.max = 1000
    ∧ listMax ((updateGyroDataV1 c6State 1000 0 0).dataPoints.flatMap
        (fun p => [p.y, p.z])) = 0
    ∧ (toggleAxis c6State Axis.x).dataPoints = c6State.dataPoints := by
  refine ⟨rfl, ?_, ?_, rfl⟩ <;> decide

/-- Claim C7 counterexample: the adapter is claimed to clamp
out-of-bounds coordinates; handleJoystickMove performs no clamping, so
the out-of-bounds input x equal 2 yields the angle 2000 instead of the
1000 a clamped input would yield. -/
theorem c7_counterexample_no_clamping :
    handleJoystickMove 2 0 0 = ⟨0, 2000, 0⟩
    ∧ clampQ (-1) 1 2 = 1
    ∧ handleJoystickMove (clampQ (-1) 1 2) 0 0 = ⟨0, 1000, 0⟩
    ∧ handleJoystickMove 2 0 0 ≠ handleJoystickMove (clampQ (-1) 1 2) 0 0 := by
  refine ⟨?_, ?_, ?_, ?_⟩ <;>
    norm_num [handleJoystickMove, clampQ, min_def, max_def, Sample.mk.injEq]

/-- Claim C7 as amended: the synthesized sample is exactly the fixed
scale factor 1000 times the normalized coordinates (joystick y feeding
the x angle and joystick x the y angle), with no clamping in the
adapter itself; the x and y coordinates are clamped into the interval
from -1 to 1 upstream in the pointer-move handler. -/
theorem c7_amended_linear_scale_upstream_clamp :
    (∀ x y z : ℚ, handleJoystickMove x y z = ⟨1000 * y, 1000 * x, 1000 * z⟩)
    ∧ ∀ clientX left width clientY top height pz : ℚ,
        -1 ≤ (handleMouseMove clientX left width clientY top height pz).x
        ∧ (handleMouseMove clientX left width clientY top height pz).x ≤ 1
        ∧ -1 ≤ (handleMouseMove clientX left width clientY top height pz).y
        ∧ (handleMouseMove clientX left width clientY top height pz).y ≤ 1 := by
  constructor
  · intro x y z
    show Sample.mk (y * 1000) (x * 1000) (z * 1000) = ⟨1000 * y, 1000 * x, 1000 * z⟩
    rw [mul_comm y 1000, mul_comm x 1000, mul_comm z 1000]
  · intro clientX left width clientY top height pz
    refine ⟨le_max_left _ _, ?_, le_max_left _ _, ?_⟩
    · exact max_le (by norm_num) (min_le_left _ _)
    · exact max_le (by norm_num) (min_le_left _ _)

/-- Claim C8 counterexample: startMeasurement of the measurement
component replaces a non-empty buffer by the empty list when a new
measurement window begins, dropping the buffered sample through
something other than capacity eviction. -/
theorem c8_counterexample_measurement_clears_buffer :
    (startMeasurement [(⟨1, 2, 3⟩ : Sample)]).1 = []
    ∧ ([(⟨1, 2, 3⟩ : Sample)] : List Sample) ≠ [] :=
  ⟨rfl, by simp⟩

/-- Claim C8 as amended: the liveness transitions proper - retry, the
stall-detection fallback to manual, the availability timeout and every
permission-change outcome - leave the sample buffer exactly unchanged;
only startMeasurement of the separate measurement component clears its
own buffer when a fresh measurement window starts. -/
theorem c8_amended_liveness_transitions_preserve_buffer :
    (∀ st : ChartState, (retryGyroscopeConnection st).dataPoints = st.dataPoints)
    ∧ (∀ st : ChartState, (gyroscopeDisconnect st).dataPoints = st.dataPoints)
    ∧ (∀ st : ChartState, (availabilityTimeout st).dataPoints = st.dataPoints)
    ∧ ∀ (st : ChartState) (o : PermOutcome),
        (requestGyroscopePermission st o).dataPoints = st.dataPoints := by
  refine ⟨fun _ => rfl, fun _ => rfl, fun _ => rfl, fun st o => ?_⟩
  cases o <;> rfl

/-- Claim C9: when the call starts from a state in which permission is
not granted, every outcome of the consent mechanism is absorbed: a
thrown platform error leaves permission ungranted and additionally marks
the sensor unusable, a resolution with any string other than granted
leaves permission ungranted, while a missing consent mechanism grants
exactly as a resolution with granted does; every branch records the
attempt. -/
theorem c9_permission_failure_absorbed :
    ∀ st : ChartState, st.permissionGranted = false →
      ((requestGyroscopePermission st .threw).permissionGranted = false
        ∧ (requestGyroscopePermission st .threw).hasGyroscope = false
        ∧ (requestGyroscopePermission st .threw).permissionAttempted = true)
      ∧ (∀ s : String, s ≠ grantedStr →
          (requestGyroscopePermission st (.resolved s)).permissionGranted = false)
      ∧ (requestGyroscopePermission st .noMechanism).permissionGranted = true
      ∧ (requestGyroscopePermission st (.resolved grantedStr)).permissionGranted = true := by
  intro st h
  refine ⟨⟨?_, rfl, rfl⟩, ?_, rfl, ?_⟩
  · simpa [requestGyroscopePermission] using h
  · intro s hs
    simpa [requestGyroscopePermission] using beq_eq_false_iff_ne.mpr hs
  · simp [requestGyroscopePermission]

/-- Witness for C9 from the initial component state: a thrown consent
error leaves permission ungranted and clears hasGyroscope, and a denial
string leaves permission ungranted. -/
theorem c9_permission_failure_absorbed_witness :
    (requestGyroscopePermission initChartState .threw).permissionGranted = false
    ∧ (requestGyroscopePermission initChartState .threw).hasGyroscope = false
    ∧ (requestGyroscopePermission initChartState
        (.resolved deniedStr)).permissionGranted = false :=
  ⟨(c9_permission_failure_absorbed initChartState rfl).1.1,
   (c9_permission_failure_absorbed initChartState rfl).1.2.1,
   (c9_permission_failure_absorbed initChartState rfl).2.1 deniedStr (by decide)⟩

end Gyro
